import Mathlib

/-!
Verification of the EDA CLI (`eda_cli/cli.py` and the core pipeline it
drives). The CLI loads a CSV into a tabular dataset and produces
descriptive-statistics artifacts: a column summary, a missing-value table,
a correlation matrix, top-category tables, heuristic quality flags and a
Markdown report.

The file shallowly embeds the pipeline. `cli.py` is embedded from the
source. The `core` and `viz` modules it imports are not in the repository
snapshot, so their functions are modelled from the specification; each
such definition says so in its doc comment.
-/

/-- A cell value of a loaded dataset: numeric or textual. -/
inductive Val where
  | num (q : ℚ)
  | str (s : String)
deriving DecidableEq, Repr

/-- A named column with its ingestion-time type tag and missing-capable
cells (`none` is a missing value, pandas `NaN`). -/
structure Column where
  name : String
  isNumeric : Bool
  cells : List (Option Val)
deriving DecidableEq, Repr

/-- A loaded dataset: a row count and an ordered sequence of columns
(a pandas `DataFrame`). -/
structure Dataset where
  nRows : Nat
  cols : List Column
deriving DecidableEq, Repr

/-- Well-formedness of a loaded dataset: every column has exactly `nRows`
cells, as in a rectangular `DataFrame`. -/
def Dataset.WF (ds : Dataset) : Prop :=
  ∀ c ∈ ds.cols, c.cells.length = ds.nRows

instance (ds : Dataset) : Decidable ds.WF := by
  unfold Dataset.WF
  exact inferInstance

/-- Number of missing cells of a column (`df[col].isna().sum()`). -/
def Column.missingCount (c : Column) : Nat :=
  c.cells.countP (fun o => o.isNone)

/-- Number of non-missing cells of a column (`df[col].count()`). -/
def Column.nonMissingCount (c : Column) : Nat :=
  c.cells.countP (fun o => o.isSome)

/-- The non-missing values of a column, in row order. -/
def Column.nonMissingVals (c : Column) : List Val :=
  c.cells.filterMap (fun o => o)

/-- Distinct values of a list in first-seen order. -/
def firstSeen (l : List Val) : List Val :=
  l.foldl (fun acc v => if v ∈ acc then acc else acc ++ [v]) []

/-- Number of distinct non-missing values of a column (`nunique`). -/
def Column.distinctCount (c : Column) : Nat :=
  (firstSeen c.nonMissingVals).length

/-- Whether any cell of the dataset is missing. -/
def Dataset.hasMissing (ds : Dataset) : Bool :=
  ds.cols.any (fun c => c.cells.any (fun o => o.isNone))

/-- One row of the missing-value table: column name, missing count and
missing share. -/
structure MissingEntry where
  colName : String
  missingCount : Nat
  missingShare : ℚ
deriving DecidableEq, Repr

/-- Modelled from the spec: `core.missing_table` is not in the repository
snapshot. §4.2 — one row per column with missing count and
`missing_share = missing_count / n_rows`; empty when the dataset has zero
rows (no division by zero) and empty when it has zero columns. -/
def missing_table (ds : Dataset) : List MissingEntry :=
  if ds.nRows = 0 then []
  else ds.cols.map (fun c =>
    ⟨c.name, c.missingCount, (c.missingCount : ℚ) / (ds.nRows : ℚ)⟩)

/-- Numeric reading of a cell value. -/
def Val.toQ : Val → Option ℚ
  | .num q => some q
  | .str _ => none

/-- The numeric values of a column, missing and non-numeric cells
dropped. -/
def Column.numericVals (c : Column) : List ℚ :=
  c.cells.filterMap (fun o => o.bind Val.toQ)

/-- Descriptive statistics of a numeric column. The spec (§3) asks for
mean/std/min/max "or equivalent"; we carry the sample variance instead of
the standard deviation to stay in ℚ. -/
structure NumStats where
  mean : ℚ
  variance : ℚ
  minVal : ℚ
  maxVal : ℚ
deriving DecidableEq, Repr

/-- Mean of a list of rationals (0 for the empty list, since `q / 0 = 0`
in ℚ). -/
def listMean (l : List ℚ) : ℚ :=
  l.sum / (l.length : ℚ)

/-- Sample variance (ddof = 1) of a list of rationals. -/
def listVar (l : List ℚ) : ℚ :=
  if l.length ≤ 1 then 0
  else ((l.map (fun x => (x - listMean l) ^ 2)).sum) / ((l.length : ℚ) - 1)

/-- Minimum of a list of rationals, 0 for the empty list. -/
def listMin : List ℚ → ℚ
  | [] => 0
  | x :: xs => xs.foldl min x

/-- Maximum of a list of rationals, 0 for the empty list. -/
def listMax : List ℚ → ℚ
  | [] => 0
  | x :: xs => xs.foldl max x

/-- Per-column part of the dataset summary. -/
structure ColumnSummary where
  name : String
  isNumeric : Bool
  nonMissing : Nat
  distinct : Nat
  stats : Option NumStats
deriving DecidableEq, Repr

/-- Modelled from the spec: per-column summarization of
`core.summarize_dataset` (§4.1) — type tag, non-missing count, distinct
count, and descriptive statistics for numeric columns. -/
def summarizeColumn (c : Column) : ColumnSummary :=
  { name := c.name
    isNumeric := c.isNumeric
    nonMissing := c.nonMissingCount
    distinct := c.distinctCount
    stats :=
      if c.isNumeric then
        some ⟨listMean c.numericVals, listVar c.numericVals,
              listMin c.numericVals, listMax c.numericVals⟩
      else none }

/-- The dataset summary: row count, column count and one summary per
column. -/
structure DatasetSummary where
  n_rows : Nat
  n_cols : Nat
  columns : List ColumnSummary
deriving DecidableEq, Repr

/-- Modelled from the spec: `core.summarize_dataset` is not in the
repository snapshot (§4.1). -/
def summarize_dataset (ds : Dataset) : DatasetSummary :=
  ⟨ds.nRows, ds.cols.length, ds.cols.map summarizeColumn⟩

/-- The heuristic quality flags (§3 QualityFlags). -/
structure QualityFlags where
  quality_score : ℚ
  max_missing_share : ℚ
  has_constant_columns : Bool
  has_high_cardinality_categoricals : Bool
  has_suspicious_id_duplicates : Bool
deriving DecidableEq, Repr

/-- Whether a column name looks like an identifier: contains "id"
case-insensitively (§4.5). -/
def isIdLike (s : String) : Bool :=
  s.toLower.toList.tails.any (fun t => "id".toList.isPrefixOf t)

/-- Modelled from the spec: `core.compute_quality_flags` is not in the
repository snapshot (§4.5). `max_missing_share` is the maximum missing
share over the missing table, 0 when the table is empty;
`has_constant_columns` — some column has exactly one distinct non-missing
value; `has_high_cardinality_categoricals` — some categorical column's
distinct count exceeds 90% of the row count;
`has_suspicious_id_duplicates` — some id-like column has duplicate
non-missing values; `quality_score` — a fixed-weight combination of the
above, clipped to [0, 1] (the weights are a policy choice, §4.5). -/
def compute_quality_flags (summary : DatasetSummary)
    (missing : List MissingEntry) (ds : Dataset) : QualityFlags :=
  let maxShare : ℚ := (missing.map (fun e => e.missingShare)).foldr max 0
  let constant : Bool := summary.columns.any (fun cs => cs.distinct == 1)
  let highCard : Bool := summary.columns.any (fun cs =>
    !cs.isNumeric && decide ((9 : ℚ) / 10 * (summary.n_rows : ℚ) < (cs.distinct : ℚ)))
  let dupIds : Bool := ds.cols.any (fun c =>
    isIdLike c.name && decide (c.distinctCount < c.nonMissingVals.length))
  { quality_score :=
      max 0 (min 1 ((1 - maxShare)
        - (if constant then (1 : ℚ) / 10 else 0)
        - (if highCard then (1 : ℚ) / 10 else 0)
        - (if dupIds then (1 : ℚ) / 10 else 0)))
    max_missing_share := maxShare
    has_constant_columns := constant
    has_high_cardinality_categoricals := highCard
    has_suspicious_id_duplicates := dupIds }

/-- Counting the `some` cells and the `none` cells of a column covers all
of its cells. -/
theorem countP_isSome_add_isNone (l : List (Option Val)) :
    l.countP (fun o => o.isSome) + l.countP (fun o => o.isNone) = l.length := by
  induction l with
  | nil => simp
  | cons o t ih =>
    cases o <;> simp [List.countP_cons] <;> omega

/-- C1: for a dataset with zero rows the missing-value analyzer returns
the empty table and the quality heuristics report a maximal missing share
of 0; the division `missing_count / n_rows` is never taken. -/
theorem missing_table_empty_of_zero_rows (ds : Dataset) (h : ds.nRows = 0) :
    missing_table ds = [] ∧
    (compute_quality_flags (summarize_dataset ds) (missing_table ds) ds).max_missing_share = 0 := by
  constructor
  · simp [missing_table, h]
  · simp [compute_quality_flags, missing_table, h]

/-- A zero-row, one-column dataset. -/
def dsZeroRows : Dataset := ⟨0, [⟨"a", true, []⟩]⟩

/-- Witness for C1 at a concrete zero-row dataset. -/
theorem missing_table_empty_of_zero_rows_witness :
    dsZeroRows.nRows = 0 ∧
    (missing_table dsZeroRows = [] ∧
      (compute_quality_flags (summarize_dataset dsZeroRows) (missing_table dsZeroRows)
        dsZeroRows).max_missing_share = 0) :=
  ⟨rfl, missing_table_empty_of_zero_rows dsZeroRows rfl⟩

/-- C8: in a well-formed dataset, the non-missing count reported by the
summarizer plus the missing count reported by the missing-value analyzer
equals the row count, for every column (the two tables list the columns
in the same order). -/
theorem nonmissing_add_missing_eq_nrows (ds : Dataset) (hwf : ds.WF)
    (i : Nat) (s : ColumnSummary) (m : MissingEntry)
    (hs : (summarize_dataset ds).columns[i]? = some s)
    (hm : (missing_table ds)[i]? = some m) :
    s.nonMissing + m.missingCount = ds.nRows := by
  by_cases h0 : ds.nRows = 0
  · simp [missing_table, h0] at hm
  · simp [missing_table, h0, summarize_dataset, List.getElem?_map,
      Option.map_eq_some'] at hs hm
    obtain ⟨c, hc, rfl⟩ := hs
    obtain ⟨c', hc', hm'⟩ := hm
    rw [hc] at hc'
    injection hc' with hcc
    subst hcc
    subst hm'
    have hlen : c.cells.length = ds.nRows :=
      hwf c (List.getElem?_mem hc)
    simp [summarizeColumn, Column.nonMissingCount, Column.missingCount]
    rw [← hlen]
    exact countP_isSome_add_isNone c.cells

/-- The spec's §8 scenario dataset: columns `id` = (1,2,2,3) and
`val` = (10, missing, 30, 40). -/
def dsScenario : Dataset :=
  ⟨4,
   [⟨"id", true, [some (Val.num 1), some (Val.num 2), some (Val.num 2), some (Val.num 3)]⟩,
    ⟨"val", true, [some (Val.num 10), none, some (Val.num 30), some (Val.num 40)]⟩]⟩

/-- Witness for C8 on the `val` column of the §8 scenario dataset. -/
theorem nonmissing_add_missing_eq_nrows_witness :
    dsScenario.WF ∧
    (summarize_dataset dsScenario).columns[1]? =
      some (summarizeColumn ⟨"val", true, [some (Val.num 10), none, some (Val.num 30), some (Val.num 40)]⟩) ∧
    (missing_table dsScenario)[1]? =
      some ⟨"val", 1, ((1 : Nat) : ℚ) / ((4 : Nat) : ℚ)⟩ ∧
    (summarizeColumn ⟨"val", true, [some (Val.num 10), none, some (Val.num 30), some (Val.num 40)]⟩).nonMissing
      + (MissingEntry.missingCount ⟨"val", 1, ((1 : Nat) : ℚ) / ((4 : Nat) : ℚ)⟩) = dsScenario.nRows :=
  ⟨by decide, rfl, rfl,
   nonmissing_add_missing_eq_nrows dsScenario (by decide) 1 _ _ rfl rfl⟩

/-- One entry of a top-categories table: a value, its occurrence count and
the index at which the value is first seen in the column. -/
structure CatCount where
  val : Val
  count : Nat
  firstIdx : Nat
deriving DecidableEq, Repr

/-- The order used to sort category counts: larger count first; for equal
counts, the value seen first comes first. -/
def catLE (a b : CatCount) : Prop :=
  b.count < a.count ∨ (a.count = b.count ∧ a.firstIdx ≤ b.firstIdx)

instance : DecidableRel catLE := fun a b => by
  unfold catLE
  exact inferInstance

instance : IsTotal CatCount catLE := by
  constructor
  intro a b
  unfold catLE
  omega

instance : IsTrans CatCount catLE := by
  constructor
  intro a b c hab hbc
  unfold catLE at hab hbc ⊢
  omega

/-- The occurrence counts of a column's distinct non-missing values in
first-seen order, each tagged with its first-seen rank (pandas
`value_counts`, missing values excluded). -/
def taggedCounts (c : Column) : List CatCount :=
  (firstSeen c.nonMissingVals).enum.map
    (fun p => ⟨p.2, c.nonMissingVals.count p.2, p.1⟩)

/-- Modelled from the spec: `core.top_categories` is not in the repository
snapshot (§4.4). For every non-numeric column: count occurrences of each
distinct non-missing value, sort descending by count (ties broken by
first-seen order) and take the first `top_k`. -/
def top_categories (ds : Dataset) (top_k : Nat) : List (String × List CatCount) :=
  (ds.cols.filter (fun c => !c.isNumeric)).map
    (fun c => (c.name, (List.insertionSort catLE (taggedCounts c)).take top_k))

/-- C7: for every positive `top_k`, each per-column table of the category
profiler has at most `top_k` entries and is sorted descending by
frequency, equal frequencies ordered by first-seen rank. -/
theorem top_categories_sorted_bounded (ds : Dataset) (k : Nat) (hk : 0 < k)
    (col : String) (entries : List CatCount)
    (h : (col, entries) ∈ top_categories ds k) :
    entries.length ≤ k ∧
    entries.Pairwise (fun a b =>
      b.count ≤ a.count ∧ (a.count = b.count → a.firstIdx ≤ b.firstIdx)) := by
  unfold top_categories at h
  rw [List.mem_map] at h
  obtain ⟨c, _, hpair⟩ := h
  have hentries : entries = (List.insertionSort catLE (taggedCounts c)).take k :=
    (congrArg Prod.snd hpair).symm
  subst hentries
  constructor
  · rw [List.length_take]
    exact min_le_left _ _
  · have hsorted : (List.insertionSort catLE (taggedCounts c)).Sorted catLE :=
      List.sorted_insertionSort catLE (taggedCounts c)
    have htake : ((List.insertionSort catLE (taggedCounts c)).take k).Pairwise catLE :=
      hsorted.sublist (List.take_sublist k _)
    refine htake.imp ?_
    intro a b hab
    unfold catLE at hab
    constructor
    · omega
    · intro heq
      omega

/-- A small dataset with one categorical column `c` whose values are
x, y, x. -/
def dsCats : Dataset :=
  ⟨3, [⟨"c", false, [some (Val.str "x"), some (Val.str "y"), some (Val.str "x")]⟩]⟩

/-- Witness for C7 on `dsCats` with `top_k = 2`. -/
theorem top_categories_sorted_bounded_witness :
    0 < 2 ∧
    ("c", [⟨Val.str "x", 2, 0⟩, ⟨Val.str "y", 1, 1⟩]) ∈ top_categories dsCats 2 ∧
    ([(⟨Val.str "x", 2, 0⟩ : CatCount), ⟨Val.str "y", 1, 1⟩].length ≤ 2 ∧
      List.Pairwise (fun a b =>
        b.count ≤ a.count ∧ (a.count = b.count → a.firstIdx ≤ b.firstIdx))
        [(⟨Val.str "x", 2, 0⟩ : CatCount), ⟨Val.str "y", 1, 1⟩]) :=
  ⟨by decide, by decide,
   top_categories_sorted_bounded dsCats 2 (by decide) "c" _ (by decide)⟩

/-- The correlation matrix over the numeric columns: their names and the
square table of coefficients. -/
structure CorrelationMatrix where
  names : List String
  entries : List (List ℝ)

/-- The numeric columns of a dataset, in order. -/
def numericCols (ds : Dataset) : List Column :=
  ds.cols.filter (fun c => c.isNumeric)

/-- Modelled from the spec: the Pearson coefficient of two columns over
their pairwise-complete observations (§4.3); 0 when a variance vanishes
or no complete pair exists. -/
noncomputable def pearson (x y : Column) : ℝ :=
  let ps : List (ℚ × ℚ) :=
    ((x.cells.map (fun o => o.bind Val.toQ)).zip (y.cells.map (fun o => o.bind Val.toQ))).filterMap
      (fun p => match p.1, p.2 with
        | some a, some b => some (a, b)
        | _, _ => none)
  let n : ℚ := (ps.length : ℚ)
  if ps.length = 0 then 0
  else
    let mx := (ps.map (fun p => p.1)).sum / n
    let my := (ps.map (fun p => p.2)).sum / n
    let cov : ℚ := (ps.map (fun p => (p.1 - mx) * (p.2 - my))).sum
    let vx : ℚ := (ps.map (fun p => (p.1 - mx) ^ 2)).sum
    let vy : ℚ := (ps.map (fun p => (p.2 - my) ^ 2)).sum
    if vx = 0 ∨ vy = 0 then 0
    else (cov : ℝ) / Real.sqrt ((vx : ℝ) * (vy : ℝ))

/-- Modelled from the spec: `core.correlation_matrix` is not in the
repository snapshot (§4.3). Pearson correlation over the numeric columns;
the empty matrix (not an error) when fewer than two numeric columns
exist; self-correlation is 1. -/
noncomputable def correlation_matrix (ds : Dataset) : CorrelationMatrix :=
  let nc := numericCols ds
  if nc.length < 2 then ⟨[], []⟩
  else ⟨nc.map (fun c => c.name),
        nc.map (fun x => nc.map (fun y =>
          if x.name = y.name then 1 else pearson x y))⟩

/-- Options of the `report` command, with their `typer.Option` defaults
(cli.py lines 66-82). -/
structure ReportOptions where
  outDir : String
  maxHistColumns : Nat
  topKCategories : Nat
  title : String
  minMissingShare : ℚ
deriving DecidableEq, Repr

/-- The defaults of `report`: out_dir "reports", max_hist_columns 6,
top_k_categories 5, title "EDA-отчёт", min_missing_share 0.3. -/
def defaultReportOptions : ReportOptions :=
  ⟨"reports", 6, 5, "EDA-отчёт", 3 / 10⟩

/-- The files `report` writes under the output directory. -/
inductive OutFile where
  | summaryCsv
  | missingCsv
  | correlationCsv
  | topCategory (col : String)
  | reportMd
  | histogramPng (col : String)
  | missingMatrixPng
  | correlationHeatmapPng
deriving DecidableEq, Repr

/-- The numeric columns that receive a histogram, capped at
`max_hist_columns` (viz.plot_histograms_per_column is not in the
repository snapshot; the cap is modelled from the spec §4.6/§6). -/
def histogramCols (ds : Dataset) (maxCols : Nat) : List Column :=
  (numericCols ds).take maxCols

/-- The files written by a successful `report` run, in write order
(cli.py lines 103-108, 118, 168-170): `summary.csv` always, `missing.csv`
if the missing table is non-empty, `correlation.csv` if the correlation
matrix is non-empty, one file per categorical column, `report.md`, the
histogram images, the missing matrix and the correlation heatmap. -/
noncomputable def reportWrites (ds : Dataset) (opts : ReportOptions) : List OutFile :=
  [OutFile.summaryCsv]
    ++ (if (missing_table ds).isEmpty then [] else [OutFile.missingCsv])
    ++ (if (correlation_matrix ds).names.isEmpty then [] else [OutFile.correlationCsv])
    ++ (ds.cols.filter (fun c => !c.isNumeric)).map (fun c => OutFile.topCategory c.name)
    ++ [OutFile.reportMd]
    ++ (histogramCols ds opts.maxHistColumns).map (fun c => OutFile.histogramPng c.name)
    ++ [OutFile.missingMatrixPng, OutFile.correlationHeatmapPng]

/-- A filesystem event of a `report` run. -/
inductive FsEvent where
  | mkdirP (dir : String)
  | write (f : OutFile)
deriving DecidableEq, Repr

/-- From cli.py `_load_csv` (lines 28-38): `typer.BadParameter` when the
file does not exist, `typer.BadParameter` when the CSV cannot be parsed
with the given separator/encoding, the parsed dataset otherwise. -/
def loadCsv (fileExists : Bool) (parsed : Option Dataset) : Except String Dataset :=
  if fileExists = false then Except.error "Файл не найден"
  else
    match parsed with
    | none => Except.error "Не удалось прочитать CSV"
    | some ds => Except.ok ds

/-- The filesystem trace of a `report` invocation (cli.py lines 87-170):
the output directory is created first (`mkdir(parents=True, exist_ok=True)`,
line 88), the CSV is loaded only afterwards (line 90); on a load failure
the `typer.BadParameter` exception aborts the run with no further
writes. -/
noncomputable def reportRun (loadResult : Except String Dataset)
    (opts : ReportOptions) : List FsEvent :=
  FsEvent.mkdirP opts.outDir ::
    (match loadResult with
     | Except.error _ => []
     | Except.ok ds => (reportWrites ds opts).map FsEvent.write)

/-- Exit code of `overview`: `typer.BadParameter` exits with code 2,
success with 0 (cli.py lines 41-60). -/
def runOverview (fileExists : Bool) (parsed : Option Dataset) : Nat :=
  match loadCsv fileExists parsed with
  | Except.error _ => 2
  | Except.ok _ => 0

/-- Exit code and filesystem trace of `report` (cli.py lines 63-173). -/
noncomputable def runReport (fileExists : Bool) (parsed : Option Dataset)
    (opts : ReportOptions) : Nat × List FsEvent :=
  ((match loadCsv fileExists parsed with
    | Except.error _ => 2
    | Except.ok _ => 0),
   reportRun (loadCsv fileExists parsed) opts)

/-- The rows of the missing table whose share reaches the threshold
(cli.py lines 111-115: `missing_df[missing_df["missing_share"] >=
min_missing_share]` when the table is non-empty, empty otherwise). -/
def problematicMissing (ds : Dataset) (thr : ℚ) : List MissingEntry :=
  if (missing_table ds).isEmpty then []
  else (missing_table ds).filter (fun e => decide (thr ≤ e.missingShare))

/-- A content line of `report.md`. String formatting of the embedded
numbers is kept abstract: each constructor carries the data the line
interpolates. -/
inductive MdLine where
  | header (s : String)
  | dims (rows cols : Nat)
  | paramNat (pname : String) (v : Nat)
  | paramShare (v : ℚ)
  | qualityScore (v : ℚ)
  | maxMissingShareLine (v : ℚ)
  | flagLine (fname : String) (b : Bool)
  | noProblemCols
  | problemIntro (thr : ℚ)
  | problemEntry (cname : String) (share : ℚ)
  | artifactBullet (file : String)
deriving DecidableEq, Repr

/-- The content lines of `report.md`, in the order cli.py writes them
(lines 117-165). The source-file echo line is omitted: it only restates
the CLI path argument. The "Дополнительные материалы" bullets at the end
are written unconditionally. -/
def reportMdLines (ds : Dataset) (opts : ReportOptions) : List MdLine :=
  let summary := summarize_dataset ds
  let qf := compute_quality_flags summary (missing_table ds) ds
  let prob := problematicMissing ds opts.minMissingShare
  [MdLine.header opts.title,
   MdLine.dims summary.n_rows summary.n_cols,
   MdLine.paramNat "max_hist_columns" opts.maxHistColumns,
   MdLine.paramNat "top_k_categories" opts.topKCategories,
   MdLine.paramShare opts.minMissingShare,
   MdLine.qualityScore qf.quality_score,
   MdLine.maxMissingShareLine qf.max_missing_share,
   MdLine.flagLine "has_constant_columns" qf.has_constant_columns,
   MdLine.flagLine "has_high_cardinality_categoricals" qf.has_high_cardinality_categoricals,
   MdLine.flagLine "has_suspicious_id_duplicates" qf.has_suspicious_id_duplicates]
  ++ (if prob.isEmpty then [MdLine.noProblemCols]
      else MdLine.problemIntro opts.minMissingShare ::
        prob.map (fun e => MdLine.problemEntry e.colName e.missingShare))
  ++ [MdLine.artifactBullet "summary.csv",
      MdLine.artifactBullet "missing.csv",
      MdLine.artifactBullet "correlation.csv",
      MdLine.artifactBullet "top_categories/"]

/-- The content of a tabular artifact of `report`. -/
inductive ArtifactContent where
  | summaryTab (s : DatasetSummary)
  | missingTab (m : List MissingEntry)
  | corrTab (c : CorrelationMatrix)

/-- The tabular artifacts `report` writes, with their contents (cli.py
lines 103-107): `summary.csv` always, `missing.csv` and `correlation.csv`
when non-empty. -/
noncomputable def tabularArtifacts (ds : Dataset) (opts : ReportOptions) :
    List (OutFile × ArtifactContent) :=
  [(OutFile.summaryCsv, ArtifactContent.summaryTab (summarize_dataset ds))]
    ++ (if (missing_table ds).isEmpty then []
        else [(OutFile.missingCsv, ArtifactContent.missingTab (missing_table ds))])
    ++ (if (correlation_matrix ds).names.isEmpty then []
        else [(OutFile.correlationCsv, ArtifactContent.corrTab (correlation_matrix ds))])

/-- A failed load is an `Except.error`, whatever the failure. -/
theorem loadCsv_error_of_bad (fileExists : Bool) (parsed : Option Dataset)
    (h : fileExists = false ∨ parsed = none) :
    ∃ msg, loadCsv fileExists parsed = Except.error msg := by
  rcases h with h | h
  · subst h
    exact ⟨_, rfl⟩
  · subst h
    cases fileExists
    · exact ⟨_, rfl⟩
    · exact ⟨_, rfl⟩

/-- The missing table is empty exactly for a dataset with no rows or no
columns. -/
theorem missing_table_eq_nil_iff (ds : Dataset) :
    missing_table ds = [] ↔ (ds.nRows = 0 ∨ ds.cols = []) := by
  unfold missing_table
  by_cases h0 : ds.nRows = 0 <;> simp [h0]

/-- Membership in the problematic-columns table. -/
theorem mem_problematicMissing (ds : Dataset) (thr : ℚ) (e : MissingEntry) :
    e ∈ problematicMissing ds thr ↔
      (e ∈ missing_table ds ∧ thr ≤ e.missingShare) := by
  unfold problematicMissing
  by_cases hm : (missing_table ds).isEmpty
  · rw [List.isEmpty_iff] at hm
    simp [hm]
  · simp [hm, List.mem_filter]

/-- C3: when the input file does not exist or the CSV cannot be parsed,
`_load_csv` raises `typer.BadParameter` with a message, and both
`overview` and `report` exit non-zero instead of crashing. -/
theorem bad_input_exits_nonzero (fileExists : Bool) (parsed : Option Dataset)
    (opts : ReportOptions) (h : fileExists = false ∨ parsed = none) :
    (∃ msg, loadCsv fileExists parsed = Except.error msg) ∧
    runOverview fileExists parsed ≠ 0 ∧
    (runReport fileExists parsed opts).1 ≠ 0 := by
  obtain ⟨msg, hmsg⟩ := loadCsv_error_of_bad fileExists parsed h
  refine ⟨⟨msg, hmsg⟩, ?_, ?_⟩ <;> simp [runOverview, runReport, hmsg]

/-- Witness for C3: a missing file. -/
theorem bad_input_exits_nonzero_witness :
    (false = false ∨ (none : Option Dataset) = none) ∧
    ((∃ msg, loadCsv false none = Except.error msg) ∧
      runOverview false none ≠ 0 ∧
      (runReport false none defaultReportOptions).1 ≠ 0) :=
  ⟨Or.inl rfl, bad_input_exits_nonzero false none defaultReportOptions (Or.inl rfl)⟩

/-- C9: `report` creates the output directory before loading the CSV, so
a run whose load fails has already created `out_dir`; its filesystem
trace is exactly the `mkdir`. -/
theorem out_dir_created_on_failed_load (fileExists : Bool) (parsed : Option Dataset)
    (opts : ReportOptions) (h : fileExists = false ∨ parsed = none) :
    reportRun (loadCsv fileExists parsed) opts = [FsEvent.mkdirP opts.outDir] ∧
    FsEvent.mkdirP opts.outDir ∈ reportRun (loadCsv fileExists parsed) opts := by
  obtain ⟨msg, hmsg⟩ := loadCsv_error_of_bad fileExists parsed h
  rw [hmsg]
  exact ⟨rfl, List.mem_singleton.mpr rfl⟩

/-- Witness for C9: a missing file still creates the default `reports`
directory. -/
theorem out_dir_created_on_failed_load_witness :
    (false = false ∨ (none : Option Dataset) = none) ∧
    (reportRun (loadCsv false none) defaultReportOptions =
        [FsEvent.mkdirP defaultReportOptions.outDir] ∧
      FsEvent.mkdirP defaultReportOptions.outDir ∈
        reportRun (loadCsv false none) defaultReportOptions) :=
  ⟨Or.inl rfl,
   out_dir_created_on_failed_load false none defaultReportOptions (Or.inl rfl)⟩

/-- C4: with fewer than two numeric columns the correlation matrix is the
empty matrix (not an error) and `report` does not write
`correlation.csv`. -/
theorem correlation_empty_of_lt_two_numeric (ds : Dataset) (opts : ReportOptions)
    (h : (numericCols ds).length < 2) :
    correlation_matrix ds = ⟨[], []⟩ ∧
    OutFile.correlationCsv ∉ reportWrites ds opts := by
  have hcm : correlation_matrix ds = ⟨[], []⟩ := by
    unfold correlation_matrix
    simp [h]
  refine ⟨hcm, ?_⟩
  by_cases hm : (missing_table ds).isEmpty <;>
    simp [reportWrites, hcm, hm]

/-- Witness for C4 on a dataset with no numeric column. -/
theorem correlation_empty_of_lt_two_numeric_witness :
    (numericCols dsCats).length < 2 ∧
    (correlation_matrix dsCats = ⟨[], []⟩ ∧
      OutFile.correlationCsv ∉ reportWrites dsCats defaultReportOptions) :=
  ⟨by decide,
   correlation_empty_of_lt_two_numeric dsCats defaultReportOptions (by decide)⟩

/-- A one-row, one-column dataset with no missing value. -/
def dsNoMissing : Dataset := ⟨1, [⟨"a", true, [some (Val.num 1)]⟩]⟩

/-- C2 counterexample: a dataset with no missing value at all for which
`report` still writes `missing.csv` — the missing table lists every
column, with or without missingness, so "written iff any missingness"
fails. -/
theorem missing_csv_written_without_missingness :
    dsNoMissing.hasMissing = false ∧
    OutFile.missingCsv ∈ reportWrites dsNoMissing defaultReportOptions := by
  refine ⟨by decide, ?_⟩
  have hm : (missing_table dsNoMissing).isEmpty = false := by decide
  have hc : (correlation_matrix dsNoMissing).names.isEmpty = true := by
    have : correlation_matrix dsNoMissing = ⟨[], []⟩ := by
      unfold correlation_matrix
      simp [numericCols, dsNoMissing]
    rw [this]
    rfl
  simp [reportWrites, hm, hc]

/-- C2 amended: `report` writes `missing.csv` iff the missing table is
non-empty, i.e. iff the dataset has at least one row and at least one
column — not iff it contains a missing value. -/
theorem missing_csv_written_iff (ds : Dataset) (opts : ReportOptions) :
    OutFile.missingCsv ∈ reportWrites ds opts ↔
      (0 < ds.nRows ∧ ds.cols ≠ []) := by
  have hstep : OutFile.missingCsv ∈ reportWrites ds opts ↔
      ¬ (missing_table ds).isEmpty := by
    by_cases hm : (missing_table ds).isEmpty <;>
      by_cases hc : (correlation_matrix ds).names.isEmpty <;>
        simp [reportWrites, hm, hc]
  rw [hstep, List.isEmpty_iff, missing_table_eq_nil_iff]
  constructor
  · intro h
    constructor
    · omega
    · intro hcols
      exact h (Or.inr hcols)
  · rintro ⟨h1, h2⟩ (h | h)
    · omega
    · exact h2 h

/-- Witness for the amended C2 at a concrete dataset. -/
theorem missing_csv_written_iff_witness :
    OutFile.missingCsv ∈ reportWrites dsNoMissing defaultReportOptions ↔
      (0 < dsNoMissing.nRows ∧ dsNoMissing.cols ≠ []) :=
  missing_csv_written_iff dsNoMissing defaultReportOptions

/-- A problem line appears in `report.md` exactly for the rows of the
problematic-columns table. -/
theorem mem_problemEntry_lines (ds : Dataset) (opts : ReportOptions)
    (cname : String) (share : ℚ) :
    MdLine.problemEntry cname share ∈ reportMdLines ds opts ↔
      ∃ e ∈ problematicMissing ds opts.minMissingShare,
        e.colName = cname ∧ e.missingShare = share := by
  unfold reportMdLines
  by_cases hp : (problematicMissing ds opts.minMissingShare).isEmpty
  · rw [List.isEmpty_iff] at hp
    simp [hp]
  · simp [hp]

/-- C5: the Markdown narrative's problematic-columns section lists
exactly the columns of the missing table whose missing share is ≥ the
`min_missing_share` threshold, and the threshold's default is 0.3. -/
theorem problematic_columns_exact (ds : Dataset) (opts : ReportOptions)
    (cname : String) (share : ℚ) :
    defaultReportOptions.minMissingShare = 3 / 10 ∧
    (MdLine.problemEntry cname share ∈ reportMdLines ds opts ↔
      ∃ e ∈ missing_table ds, e.colName = cname ∧ e.missingShare = share ∧
        opts.minMissingShare ≤ e.missingShare) := by
  refine ⟨rfl, ?_⟩
  rw [mem_problemEntry_lines]
  constructor
  · rintro ⟨e, he, hn, hs⟩
    obtain ⟨hmem, hthr⟩ := (mem_problematicMissing _ _ e).mp he
    exact ⟨e, hmem, hn, hs, hthr⟩
  · rintro ⟨e, he, hn, hs, hthr⟩
    exact ⟨e, (mem_problematicMissing _ _ e).mpr ⟨he, hthr⟩, hn, hs⟩

/-- Witness for C5 at the §8 scenario dataset and the default options. -/
theorem problematic_columns_exact_witness :
    defaultReportOptions.minMissingShare = 3 / 10 ∧
    (MdLine.problemEntry "val" (((1 : Nat) : ℚ) / ((4 : Nat) : ℚ)) ∈
        reportMdLines dsScenario defaultReportOptions ↔
      ∃ e ∈ missing_table dsScenario, e.colName = "val" ∧
        e.missingShare = ((1 : Nat) : ℚ) / ((4 : Nat) : ℚ) ∧
        defaultReportOptions.minMissingShare ≤ e.missingShare) :=
  problematic_columns_exact dsScenario defaultReportOptions "val"
    (((1 : Nat) : ℚ) / ((4 : Nat) : ℚ))

/-- C6: the pipeline from loaded dataset and options to the tabular
artifacts and the set of written files is a pure function — two runs on
identical inputs produce identical artifacts. -/
theorem report_tables_deterministic (ds₁ ds₂ : Dataset) (o₁ o₂ : ReportOptions)
    (hds : ds₁ = ds₂) (ho : o₁ = o₂) :
    tabularArtifacts ds₁ o₁ = tabularArtifacts ds₂ o₂ ∧
    reportWrites ds₁ o₁ = reportWrites ds₂ o₂ ∧
    reportMdLines ds₁ o₁ = reportMdLines ds₂ o₂ := by
  subst hds
  subst ho
  exact ⟨rfl, rfl, rfl⟩

/-- Witness for C6: two runs on the §8 scenario dataset coincide. -/
theorem report_tables_deterministic_witness :
    dsScenario = dsScenario ∧ defaultReportOptions = defaultReportOptions ∧
    (tabularArtifacts dsScenario defaultReportOptions =
        tabularArtifacts dsScenario defaultReportOptions ∧
      reportWrites dsScenario defaultReportOptions =
        reportWrites dsScenario defaultReportOptions ∧
      reportMdLines dsScenario defaultReportOptions =
        reportMdLines dsScenario defaultReportOptions) :=
  ⟨rfl, rfl,
   report_tables_deterministic dsScenario dsScenario defaultReportOptions
     defaultReportOptions rfl rfl⟩

/-- C10: the "Дополнительные материалы" section of `report.md` lists
`missing.csv`, `correlation.csv` and `top_categories/` for every dataset,
even when the corresponding artifact is empty and was never written. -/
theorem artifact_bullets_unconditional (ds : Dataset) (opts : ReportOptions) :
    MdLine.artifactBullet "missing.csv" ∈ reportMdLines ds opts ∧
    MdLine.artifactBullet "correlation.csv" ∈ reportMdLines ds opts ∧
    MdLine.artifactBullet "top_categories/" ∈ reportMdLines ds opts ∧
    ((missing_table ds).isEmpty = true →
      OutFile.missingCsv ∉ reportWrites ds opts) ∧
    ((correlation_matrix ds).names.isEmpty = true →
      OutFile.correlationCsv ∉ reportWrites ds opts) := by
  refine ⟨?_, ?_, ?_, ?_, ?_⟩
  · simp [reportMdLines]
  · simp [reportMdLines]
  · simp [reportMdLines]
  · intro hm
    by_cases hc : (correlation_matrix ds).names.isEmpty <;>
      simp [reportWrites, hm, hc]
  · intro hc
    by_cases hm : (missing_table ds).isEmpty <;>
      simp [reportWrites, hm, hc]

/-- Witness for C10 on the zero-row dataset: nothing tabular beyond the
summary is written, yet all three bullets appear. -/
theorem artifact_bullets_unconditional_witness :
    (missing_table dsZeroRows).isEmpty = true ∧
    (correlation_matrix dsZeroRows).names.isEmpty = true ∧
    MdLine.artifactBullet "missing.csv" ∈ reportMdLines dsZeroRows defaultReportOptions ∧
    MdLine.artifactBullet "correlation.csv" ∈ reportMdLines dsZeroRows defaultReportOptions ∧
    OutFile.missingCsv ∉ reportWrites dsZeroRows defaultReportOptions ∧
    OutFile.correlationCsv ∉ reportWrites dsZeroRows defaultReportOptions := by
  have hc : (correlation_matrix dsZeroRows).names.isEmpty = true := by
    have : correlation_matrix dsZeroRows = ⟨[], []⟩ := by
      unfold correlation_matrix
      simp [numericCols, dsZeroRows]
    rw [this]
    rfl
  refine ⟨by decide, hc, ?_, ?_, ?_, ?_⟩
  · exact (artifact_bullets_unconditional dsZeroRows defaultReportOptions).1
  · exact (artifact_bullets_unconditional dsZeroRows defaultReportOptions).2.1
  · exact (artifact_bullets_unconditional dsZeroRows defaultReportOptions).2.2.2.1 (by decide)
  · exact (artifact_bullets_unconditional dsZeroRows defaultReportOptions).2.2.2.2 hc
